import Mathlib

/-!
Shallow embedding of the lxcri container runtime core (container lifecycle
coordinator) and proofs about its state mapping, validation, lifecycle verbs,
and spec translation (seccomp profile writing, mknod fallback).

Pure functions of the Go source are translated to Lean functions; the effect
of stateful code (file writes, syscalls) is made explicit by returning a trace
of effects, and outcomes of the environment (file system, engine, processes)
are supplied as oracle parameters.
-/

namespace Lxcri

/-! ## OCI container states (specs.ContainerState) -/

/-- OCI container states used by the runtime (specs-go). -/
inductive ContainerState
  | creating
  | created
  | running
  | stopped
deriving DecidableEq, Repr

/-! ## Engine (liblxc) states

go-lxc represents lxc.State as an integer type with named constants
STOPPED = 1 .. THAWED = 8; any other integer is an unknown state and is
handled by the default branch of Container.state. -/

def lxcSTOPPED : Int := 1
def lxcSTARTING : Int := 2
def lxcRUNNING : Int := 3
def lxcSTOPPING : Int := 4
def lxcABORTING : Int := 5
def lxcFREEZING : Int := 6
def lxcFROZEN : Int := 7
def lxcTHAWED : Int := 8

/-! ## Init-process probe (container.go, getContainerInitState)

The Go code reads /proc/(initPid)/cmdline. The possible observations are:
the init PID is absent (InitPid() < 1), the read failed (with a flag telling
whether the error was ENOENT or ESRCH - other errors are additionally logged
but handled identically), or the cmdline content was read. -/

/-- Outcome of probing the init process via /proc/(initPid)/cmdline. -/
inductive InitProbe
  | noPid
  | readError (isNotExistOrEsrch : Bool)
  | cmdline (content : String)
deriving DecidableEq, Repr

/-- The sentinel argv of the container init process, NUL-terminated
(container.go line 299). -/
def initSentinel : String := "/.lxcri/lxcri-init\x00"

/-- Embeds Container.getContainerInitState (container.go lines 282-303).
The Go function always returns a nil error: read errors are ignored
(non-ENOENT/ESRCH errors are logged) and mapped to StateStopped. -/
def Container.getContainerInitState : InitProbe → ContainerState
  | InitProbe.noPid => ContainerState.stopped
  | InitProbe.readError _ => ContainerState.stopped
  | InitProbe.cmdline content =>
      if content = initSentinel then ContainerState.created
      else ContainerState.running

/-- Embeds Container.state (container.go lines 266-277): the switch over the
engine state; the result pairs the OCI status with the optional error. -/
def Container.state (s : Int) (probe : InitProbe) : ContainerState × Option String :=
  if s = lxcSTOPPED then (ContainerState.stopped, none)
  else if s = lxcSTARTING then (ContainerState.creating, none)
  else if s = lxcRUNNING ∨ s = lxcSTOPPING ∨ s = lxcABORTING ∨
          s = lxcFREEZING ∨ s = lxcFROZEN ∨ s = lxcTHAWED then
    (Container.getContainerInitState probe, none)
  else (ContainerState.stopped, some "unsupported lxc container state")

/-! ## Seccomp profile translation (cmd part, writeSeccompProfile and helpers) -/

/-- Seccomp actions of the OCI runtime spec (specs.LinuxSeccompAction). -/
inductive LinuxSeccompAction
  | ActKill
  | ActTrap
  | ActErrno
  | ActAllow
  | ActTrace
  | ActLog
  | ActKillProcess
deriving DecidableEq, Repr

/-- A single syscall argument comparison (specs.LinuxSeccompArg). -/
structure LinuxSeccompArg where
  Index : Nat
  Value : Nat
  ValueTwo : Nat
  Op : String
deriving DecidableEq, Repr

/-- A syscall rule of the OCI spec (specs.LinuxSyscall). -/
structure LinuxSyscall where
  Names : List String
  Action : LinuxSeccompAction
  Args : List LinuxSeccompArg
deriving DecidableEq, Repr

/-- The seccomp block of the OCI spec (specs.LinuxSeccomp). Architectures are
kept as their string values (for example "SCMP_ARCH_X86_64"). -/
structure LinuxSeccomp where
  DefaultAction : LinuxSeccompAction
  Architectures : List String
  Syscalls : List LinuxSyscall
deriving DecidableEq, Repr

/-- Embeds the package-level map seccompAction: the per-syscall actions
supported by the profile writer; absent keys make writeSeccompSyscall fail. -/
def seccompAction : LinuxSeccompAction → Option String
  | LinuxSeccompAction.ActKill => some "kill"
  | LinuxSeccompAction.ActTrap => some "trap"
  | LinuxSeccompAction.ActErrno => some "errno"
  | LinuxSeccompAction.ActAllow => some "allow"
  | _ => none

/-- Embeds defaultAction: returns the lxc profile string for the default
action together with the optional error. For ActTrace and ActLog the Go code
logs a warning and falls through to the default branch, which returns the
pair ("kill", non-nil error); every other unlisted action hits the same
default branch without the warning. -/
def defaultAction (seccomp : LinuxSeccomp) : String × Option String :=
  match seccomp.DefaultAction with
  | LinuxSeccompAction.ActKill => ("kill", none)
  | LinuxSeccompAction.ActTrap => ("trap", none)
  | LinuxSeccompAction.ActErrno => ("errno 0", none)
  | LinuxSeccompAction.ActAllow => ("allow", none)
  | _ => ("kill", some "Unsupported seccomp default action")

/-- Go strings.TrimLeft: removes the leading characters of s that are
contained in the cutset (a character set, not a prefix). -/
def goTrimLeft (s cutset : String) : String :=
  String.mk (s.data.dropWhile (fun ch => cutset.data.contains ch))

/-- Go strings.ToLower, character-wise (agreeing with the Go function on the
ASCII architecture names handled here). -/
def goToLower (s : String) : String :=
  String.mk (s.data.map Char.toLower)

/-- The loop body of seccompArchs: walks the listed architectures, returning
only the native architecture as soon as one entry matches it (lxc adds compat
architectures itself), otherwise accumulating the transformed names. -/
def seccompArchsLoop (nativeArch : String) : List String → List String → List String
  | [], acc => acc
  | a :: rest, acc =>
      let s := goToLower (goTrimLeft a "SCMP_ARCH_")
      if goToLower nativeArch = s then [nativeArch]
      else seccompArchsLoop nativeArch rest (acc ++ [s])

/-- Embeds seccompArchs. The native architecture (uname machine field) is an
oracle parameter. Note the Go code preallocates the accumulator with
make([]string, len(seccomp.Architectures)) - a slice of that many empty
strings - and then appends to it. -/
def seccompArchs (seccomp : LinuxSeccomp) (nativeArch : String) : List String :=
  seccompArchsLoop nativeArch seccomp.Architectures
    (List.replicate seccomp.Architectures.length "")

/-- One rule line of the written seccomp profile: the syscall name, the action
string, and the argument comparison if the line was produced for one
(each corresponds to one fmt.Fprintf line in writeSeccompSyscall). -/
structure SeccompRuleLine where
  name : String
  action : String
  arg : Option LinuxSeccompArg
deriving DecidableEq, Repr

/-- The loop of writeSeccompSyscall over sc.Names: per name, the action is
looked up (failing the write when unsupported); with no argument comparisons
one line is emitted, otherwise one line per argument comparison. -/
def seccompSyscallLines (sc : LinuxSyscall) : List String → Except String (List SeccompRuleLine)
  | [] => Except.ok []
  | nm :: rest =>
      match seccompAction sc.Action with
      | none => Except.error "unsupported seccomp action"
      | some action =>
          let here := if sc.Args.isEmpty then [SeccompRuleLine.mk nm action none]
            else sc.Args.map (fun arg => SeccompRuleLine.mk nm action (some arg))
          match seccompSyscallLines sc rest with
          | Except.error e => Except.error e
          | Except.ok ls => Except.ok (here ++ ls)

/-- Embeds writeSeccompSyscall: the rule lines written for one syscall entry. -/
def writeSeccompSyscall (sc : LinuxSyscall) : Except String (List SeccompRuleLine) :=
  seccompSyscallLines sc sc.Names

/-- The loop of writeSeccompProfile over seccomp.Syscalls for one
architecture section. -/
def writeAllSyscalls : List LinuxSyscall → Except String (List SeccompRuleLine)
  | [] => Except.ok []
  | sc :: rest =>
      match writeSeccompSyscall sc with
      | Except.error e => Except.error e
      | Except.ok ls =>
          match writeAllSyscalls rest with
          | Except.error e => Except.error e
          | Except.ok ls2 => Except.ok (ls ++ ls2)

/-- A line of the written seccomp profile. -/
inductive ProfileLine
  | version2
  | allowlist (action : String)
  | archHeader (arch : String)
  | rule (l : SeccompRuleLine)
deriving DecidableEq, Repr

/-- The loop of writeSeccompProfile over the emitted architectures: a
bracketed architecture header followed by the rule lines of every syscall. -/
def profileSections (seccomp : LinuxSeccomp) : List String → Except String (List ProfileLine)
  | [] => Except.ok []
  | arch :: rest =>
      match writeAllSyscalls seccomp.Syscalls with
      | Except.error e => Except.error e
      | Except.ok ls =>
          match profileSections seccomp rest with
          | Except.error e => Except.error e
          | Except.ok tail =>
              Except.ok (ProfileLine.archHeader arch :: ls.map ProfileLine.rule ++ tail)

/-- Embeds writeSeccompProfile as the sequence of lines it writes: the
version line "2", the allowlist line with the default action, then one
section per emitted architecture. A non-nil error of defaultAction (or of a
syscall write) makes the whole write fail with that error, as in the Go code. -/
def writeSeccompProfile (seccomp : LinuxSeccomp) (nativeArch : String) :
    Except String (List ProfileLine) :=
  match defaultAction seccomp with
  | (_, some e) => Except.error e
  | (action, none) =>
      match profileSections seccomp (seccompArchs seccomp nativeArch) with
      | Except.error e => Except.error e
      | Except.ok sections =>
          Except.ok (ProfileLine.version2 :: ProfileLine.allowlist action :: sections)

/-! ## Mounts and the CAP_MKNOD fallback (configureContainer) -/

/-- An OCI mount entry (specs.Mount). The Go field Type is called Typ here
because Type is a Lean keyword. -/
structure Mount where
  Destination : String
  Source : String
  Typ : String
  Options : List String
deriving DecidableEq, Repr

/-- An OCI device request (specs.LinuxDevice); only the path matters for the
bind-mount fallback. -/
structure Device where
  Path : String
deriving DecidableEq, Repr

/-- The bind mount generated for one requested device when the runtime lacks
CAP_MKNOD. -/
def devBindMount (p : String) : Mount :=
  Mount.mk p p "bind" ["bind", "create=file"]

/-- The tmpfs mount at /dev that the fallback constructs. -/
def devTmpfsMount : Mount :=
  Mount.mk "/dev" "tmpfs" "tmpfs" ["rw", "nosuid", "noexec", "relatime"]

/-- Embeds the CAP_MKNOD fallback block of configureContainer: the final value
of c.Spec.Mounts. newMounts collects the spec mounts without /dev and then the
device bind mounts. The statement in between appends the tmpfs /dev mount to
c.Spec.Mounts itself - a write that is dead, because the block ends with
c.Spec.Mounts = newMounts; it is kept here as an unused binding. -/
def mknodFallbackMounts (specMounts : List Mount) (devices : List Device) : List Mount :=
  let newMounts := specMounts.filter (fun m => m.Destination ≠ "/dev")
  let _specMountsWithTmpfs := specMounts ++ [devTmpfsMount]
  let newMounts := newMounts ++ devices.map (fun d => devBindMount d.Path)
  newMounts

/-! ## Spec validation (Runtime.checkConfig / Runtime.checkSpec) -/

/-- OCI Linux namespace types (specs.LinuxNamespaceType). -/
inductive LinuxNamespaceType
  | pid
  | network
  | mount
  | ipc
  | uts
  | user
  | cgroup
deriving DecidableEq, Repr

/-- An OCI namespace entry (specs.LinuxNamespace). -/
structure LinuxNamespace where
  Typ : LinuxNamespaceType
  Path : String
deriving DecidableEq, Repr

/-- specs.Root: only Path is consulted by validation. -/
structure SpecRoot where
  Path : String
deriving DecidableEq, Repr

/-- specs.Process: the fields consulted by validation. -/
structure SpecProcess where
  Args : List String
  Cwd : String
deriving DecidableEq, Repr

/-- The OCI spec fields consulted by validation; the Linux block is flattened
into the Namespaces field. Root and Process are optional because the Go spec
holds them as nilable pointers. -/
structure Spec where
  Root : Option SpecRoot
  Process : Option SpecProcess
  Namespaces : List LinuxNamespace
deriving DecidableEq, Repr

/-- The per-container request (ContainerConfig): the fields consulted by
checkConfig. -/
structure ContainerConfig where
  ContainerID : String
  Spec : Spec
deriving DecidableEq, Repr

/-- Modelled from the spec: isHostNamespaceShared is code of this repository
that is not under src/ (only its callers in checkSpec are). Per the spec, a
namespace list shares the host namespace of a given type when it omits that
type altogether, or when the entry for it names a path that refers to the
host namespace of that type; an entry with an empty path creates a fresh
namespace. Whether a path refers to the host namespace is decided by the
oracle hostNsPath. -/
def isHostNamespaceShared (namespaces : List LinuxNamespace)
    (t : LinuxNamespaceType) (hostNsPath : String → Bool) : Bool :=
  match namespaces.find? (fun n => n.Typ = t) with
  | none => true
  | some n => if n.Path = "" then false else hostNsPath n.Path

/-- Embeds Runtime.checkSpec. The Go method mutates the spec in place (the
Cwd default); here the validated spec is returned. Sharing the host PID
namespace is only logged at info level and does not affect the result. -/
def Runtime.checkSpec (hostNsPath : LinuxNamespaceType → String → Bool)
    (spec : Spec) : Except String Spec :=
  match spec.Root with
  | none => Except.error "spec.Root is nil"
  | some root =>
    if root.Path.length = 0 then Except.error "empty spec.Root.Path"
    else
      match spec.Process with
      | none => Except.error "spec.Process is nil"
      | some proc =>
        if proc.Args.length = 0 then Except.error "specs.Process.Args is empty"
        else
          let proc := if proc.Cwd = "" then SpecProcess.mk proc.Args "/" else proc
          if isHostNamespaceShared spec.Namespaces LinuxNamespaceType.mount
              (hostNsPath LinuxNamespaceType.mount) then
            Except.error "container wants to share the hosts mount namespace"
          else
            Except.ok (Spec.mk spec.Root (some proc) spec.Namespaces)

/-- Embeds Runtime.checkConfig. -/
def Runtime.checkConfig (hostNsPath : LinuxNamespaceType → String → Bool)
    (cfg : ContainerConfig) : Except String ContainerConfig :=
  if cfg.ContainerID.length = 0 then Except.error "missing container ID"
  else
    match Runtime.checkSpec hostNsPath cfg.Spec with
    | Except.error e => Except.error e
    | Except.ok s => Except.ok (ContainerConfig.mk cfg.ContainerID s)

/-! ## Runtime.Create -/

/-- Outcomes of the effectful steps of Runtime.Create, supplied as oracles. -/
structure CreateEnv where
  createStep : Except String Unit
  configureStep : Except String Unit
  writeConfigJson : Except String Unit
  writeHooksJson : Except String Unit
  stateStep : Except String Unit
  writeStateJson : Except String Unit
  runStartCmd : Except String Unit
  writeLxcriJson : Except String Unit
deriving Repr

/-- Embeds Runtime.Create: validation first (returning a nil container on a
validation error), then the effectful steps in source order, each returning
the partially constructed container together with the error on failure. The
result mirrors the Go pair (c *Container, err error) as
(Option ContainerConfig, Option String). -/
def Runtime.Create (hostNsPath : LinuxNamespaceType → String → Bool)
    (cfg : ContainerConfig) (env : CreateEnv) :
    Option ContainerConfig × Option String :=
  match Runtime.checkConfig hostNsPath cfg with
  | Except.error e => (none, some e)
  | Except.ok c =>
    match env.createStep with
    | Except.error e => (some c, some ("failed to create container: " ++ e))
    | Except.ok _ =>
    match env.configureStep with
    | Except.error e => (some c, some ("failed to configure container: " ++ e))
    | Except.ok _ =>
    match env.writeConfigJson with
    | Except.error e => (some c, some e)
    | Except.ok _ =>
    match env.writeHooksJson with
    | Except.error e => (some c, some e)
    | Except.ok _ =>
    match env.stateStep with
    | Except.error e => (some c, some e)
    | Except.ok _ =>
    match env.writeStateJson with
    | Except.error e => (some c, some e)
    | Except.ok _ =>
    match env.runStartCmd with
    | Except.error e => (some c, some ("failed to run container process: " ++ e))
    | Except.ok _ =>
    match env.writeLxcriJson with
    | Except.error e => (some c, some e)
    | Except.ok _ => (some c, none)

/-! ## Lifecycle verbs: Start, Kill, Delete

Effects the verbs may perform on the world; each verb returns its result
together with the trace of effects it performed. -/

/-- Observable side effects of the lifecycle verbs. -/
inductive Effect
  | openFifo
  | killCgroup (signum : Int)
  | drainCgroup (dir : String) (signum : Int)
  | removeOrphanDir
  | destroy
deriving DecidableEq, Repr

def SIGKILL : Int := 9

/-- Oracles for Runtime.Start: the engine state and init probe that determine
c.State(), and the outcomes of the FIFO open/close and of waitStarted. -/
structure StartEnv where
  engineState : Int
  probe : InitProbe
  openFifo : Except String Unit
  closeFifo : Except String Unit
  waitStarted : Except String Unit
deriving Repr

/-- Embeds Runtime.Start: compute the state; refuse unless the status is
created; otherwise open and close the sync FIFO and wait for the started
transition (Container.start). -/
def Runtime.Start (env : StartEnv) : Except String Unit × List Effect :=
  match Container.state env.engineState env.probe with
  | (_, some e) => (Except.error ("failed to get container state: " ++ e), [])
  | (st, none) =>
    if st ≠ ContainerState.created then
      (Except.error "invalid container state", [])
    else
      match env.openFifo with
      | Except.error e => (Except.error e, [Effect.openFifo])
      | Except.ok _ =>
        match env.closeFifo with
        | Except.error e => (Except.error e, [Effect.openFifo])
        | Except.ok _ => (env.waitStarted, [Effect.openFifo])

/-- Failure modes of killCgroup as distinguished by Container.kill:
a not-exist error and ENODEV are absorbed (the cgroup may have been deleted
concurrently), anything else is fatal. -/
inductive KillErr
  | notExist
  | enodev
  | other (e : String)
deriving DecidableEq, Repr

/-- Embeds Container.kill (container.go lines 305-327): signals the whole
cgroup, absorbing not-exist and ENODEV errors. The killCgroup outcome is an
oracle (none means success). -/
def Container.kill (outcome : Option KillErr) (signum : Int) :
    Except String Unit × List Effect :=
  match outcome with
  | none => (Except.ok (), [Effect.killCgroup signum])
  | some KillErr.notExist => (Except.ok (), [Effect.killCgroup signum])
  | some KillErr.enodev => (Except.ok (), [Effect.killCgroup signum])
  | some (KillErr.other e) =>
      (Except.error ("failed to kill group: " ++ e), [Effect.killCgroup signum])

/-- Oracles for Runtime.Kill. -/
structure KillEnv where
  engineState : Int
  probe : InitProbe
  killCgroup : Option KillErr
deriving Repr

/-- Embeds Runtime.Kill: compute the state; refuse if stopped; otherwise
signal the cgroup via Container.kill. -/
def Runtime.Kill (env : KillEnv) (signum : Int) : Except String Unit × List Effect :=
  match Container.state env.engineState env.probe with
  | (_, some e) => (Except.error e, [])
  | (st, none) =>
    if st = ContainerState.stopped then
      (Except.error "container already stopped", [])
    else Container.kill env.killCgroup signum

/-- The observable facts about a successfully loaded container that
Runtime.Delete consults, with the outcomes of its effectful steps. The drain
outcome is carried but never consulted for the result: the Go code only logs
a drain failure. -/
structure LoadedContainer where
  cgroupDir : String
  engineState : Int
  probe : InitProbe
  killCgroup : Option KillErr
  drain : Except String Unit
  destroy : Except String Unit
deriving Repr

/-- Outcome of Runtime.Load as seen by Delete. -/
inductive LoadResult
  | notExist
  | loadError (e : String)
  | ok (c : LoadedContainer)
deriving Repr

/-- Oracles for Runtime.Delete. -/
structure DeleteEnv where
  load : LoadResult
  removeAll : Except String Unit
deriving Repr

/-- Embeds Runtime.Delete: success when the container does not exist; removal
of the orphan runtime directory when it cannot be loaded; refusal when not
stopped and not forced; forced SIGKILL of the cgroup, then cgroup draining
(result only logged), then destroy (remove runtime directory and release the
engine handle). -/
def Runtime.Delete (force : Bool) (env : DeleteEnv) : Except String Unit × List Effect :=
  match env.load with
  | LoadResult.notExist => (Except.ok (), [])
  | LoadResult.loadError _ => (env.removeAll, [Effect.removeOrphanDir])
  | LoadResult.ok c =>
    match Container.state c.engineState c.probe with
    | (_, some e) => (Except.error e, [])
    | (st, none) =>
      let killStep : Except String Unit × List Effect :=
        if st = ContainerState.stopped then (Except.ok (), [])
        else if force then
          match Container.kill c.killCgroup SIGKILL with
          | (Except.ok _, effs) => (Except.ok (), effs)
          | (Except.error e, effs) =>
              (Except.error ("failed to kill container: " ++ e), effs)
        else (Except.error "container is not not stopped", [])
      match killStep with
      | (Except.error e, effs) => (Except.error e, effs)
      | (Except.ok _, effs) =>
        let effs2 := effs ++
          (if c.cgroupDir = "" then [] else [Effect.drainCgroup c.cgroupDir SIGKILL])
        match c.destroy with
        | Except.ok _ => (Except.ok (), effs2 ++ [Effect.destroy])
        | Except.error e =>
            (Except.error ("failed to destroy container: " ++ e), effs2 ++ [Effect.destroy])

/-! ## Monitor liveness (Container.isMonitorRunning) -/

/-- Syscalls that isMonitorRunning may issue. -/
inductive Syscall
  | wait4 (pid : Int)
  | kill (pid : Int) (signum : Int)
deriving DecidableEq, Repr

/-- Errno values distinguished by isMonitorRunning. -/
inductive Errno
  | echild
  | esrch
  | otherErr
deriving DecidableEq, Repr

/-- Oracles for the syscalls of isMonitorRunning: the wait4 result (returned
pid and optional errno) and the kill(pid, 0) result (none means success). -/
structure MonitorEnv where
  wait4 : Int × Option Errno
  kill0 : Option Errno
deriving Repr

/-- Embeds Container.isMonitorRunning (container.go lines 149-181), returning
the liveness verdict together with the trace of syscalls issued. A recorded
monitor pid below 2 short-circuits to false before any syscall. -/
def Container.isMonitorRunning (cPid : Int) (env : MonitorEnv) : Bool × List Syscall :=
  if cPid < 2 then (false, [])
  else
    let trace := [Syscall.wait4 cPid]
    let pid := env.wait4.1
    let err := env.wait4.2
    if pid = cPid then (false, trace)
    else if pid = 0 then (true, trace)
    else if err = some Errno.echild then
      let trace2 := trace ++ [Syscall.kill cPid 0]
      match env.kill0 with
      | none => (true, trace2)
      | some Errno.esrch => (false, trace2)
      | some _ => (false, trace2)
    else (false, trace)

/-! ## Concrete inputs used by witnesses and counterexamples -/

/-- The architecture name the spec prescribes: the value lowercased with
exactly the leading prefix SCMP_ARCH_ removed. Stated from the words of the
specification for comparison with the source function seccompArchs. -/
def specArchName (a : String) : String :=
  goToLower (if "SCMP_ARCH_".data.isPrefixOf a.data then String.mk (a.data.drop 10) else a)

/-- A seccomp block whose default action is the unsupported ActTrace. -/
def traceSeccomp : LinuxSeccomp :=
  LinuxSeccomp.mk LinuxSeccompAction.ActTrace ["SCMP_ARCH_X86_64"]
    [LinuxSyscall.mk ["mount"] LinuxSeccompAction.ActAllow []]

/-- A seccomp block listing the ARM architecture. -/
def armSeccomp : LinuxSeccomp :=
  LinuxSeccomp.mk LinuxSeccompAction.ActKill ["SCMP_ARCH_ARM"]
    [LinuxSyscall.mk ["mount"] LinuxSeccompAction.ActAllow []]

/-- Two argument comparisons for one syscall entry. -/
def sampleArgs : List LinuxSeccompArg :=
  [LinuxSeccompArg.mk 0 1 0 "SCMP_CMP_EQ", LinuxSeccompArg.mk 1 2 0 "SCMP_CMP_EQ"]

/-- A syscall entry with two argument comparisons. -/
def sampleSyscall : LinuxSyscall :=
  LinuxSyscall.mk ["socket"] LinuxSeccompAction.ActAllow sampleArgs

/-- The rule lines writeSeccompSyscall emits for sampleSyscall. -/
def sampleLines : List SeccompRuleLine :=
  sampleArgs.map (fun arg => SeccompRuleLine.mk "socket" "allow" (some arg))

/-- A spec mount list containing a /dev mount, as a CRI engine would pass. -/
def sampleSpecMounts : List Mount :=
  [Mount.mk "/dev" "tmpfs" "tmpfs" ["rw"], Mount.mk "/proc" "proc" "proc" []]

/-- One requested device. -/
def sampleDevices : List Device := [Device.mk "/dev/null"]

/-- A CreateEnv in which every effectful step succeeds. -/
def allOkCreateEnv : CreateEnv :=
  CreateEnv.mk (Except.ok ()) (Except.ok ()) (Except.ok ()) (Except.ok ())
    (Except.ok ()) (Except.ok ()) (Except.ok ()) (Except.ok ())

/-- A CreateEnv in which the monitor launch (runStartCmd) fails. -/
def failStartCreateEnv : CreateEnv :=
  CreateEnv.mk (Except.ok ()) (Except.ok ()) (Except.ok ()) (Except.ok ())
    (Except.ok ()) (Except.ok ()) (Except.error "monitor died") (Except.ok ())

/-- A container configuration with an empty container ID but an otherwise
complete spec. -/
def emptyIDConfig : ContainerConfig :=
  ContainerConfig.mk ""
    (Spec.mk (some (SpecRoot.mk "/rootfs")) (some (SpecProcess.mk ["sh"] "/"))
      [LinuxNamespace.mk LinuxNamespaceType.mount ""])

/-- A valid container configuration. Its namespace list creates a fresh mount
namespace and omits the PID namespace entirely, so it shares the host PID
namespace. -/
def validConfig : ContainerConfig :=
  ContainerConfig.mk "c1"
    (Spec.mk (some (SpecRoot.mk "/rootfs")) (some (SpecProcess.mk ["sh"] "/"))
      [LinuxNamespace.mk LinuxNamespaceType.mount ""])

/-- A host-namespace oracle that never identifies a path with the host
namespace. -/
def noHostNs : LinuxNamespaceType → String → Bool := fun _ _ => false

/-- A valid configuration whose process has an empty Cwd. -/
def emptyCwdConfig : ContainerConfig :=
  ContainerConfig.mk "c2"
    (Spec.mk (some (SpecRoot.mk "/rootfs")) (some (SpecProcess.mk ["sh"] ""))
      [LinuxNamespace.mk LinuxNamespaceType.mount ""])

/-- The validated form of emptyCwdConfig: Cwd has been defaulted to /. -/
def emptyCwdChecked : ContainerConfig :=
  ContainerConfig.mk "c2"
    (Spec.mk (some (SpecRoot.mk "/rootfs")) (some (SpecProcess.mk ["sh"] "/"))
      [LinuxNamespace.mk LinuxNamespaceType.mount ""])

/-- A loaded container that is running (engine RUNNING, init process already
executed away from the sentinel), with a cgroup directory, whose kill and
destroy steps succeed. -/
def runningLoaded : LoadedContainer :=
  LoadedContainer.mk "kubepods/c1" lxcRUNNING (InitProbe.cmdline "/bin/sh\x00")
    none (Except.ok ()) (Except.ok ())

/-! ## Theorems -/

/-- C1: For every engine state and every init-process probe result, the OCI
status computed by Container.state is defined (the function is total) and
matches the mapping table: STOPPED maps to stopped and STARTING to creating;
for RUNNING, STOPPING, ABORTING, FREEZING, FROZEN, THAWED the status comes
from the init probe - created when the cmdline equals the NUL-terminated
sentinel /.lxcri/lxcri-init, running when it differs, stopped when the
cmdline cannot be read or the init PID is absent; any other engine state
yields an error. -/
theorem oci_state_mapping (s : Int) (probe : InitProbe) :
    Container.state lxcSTOPPED probe = (ContainerState.stopped, none)
  ∧ Container.state lxcSTARTING probe = (ContainerState.creating, none)
  ∧ ((s = lxcRUNNING ∨ s = lxcSTOPPING ∨ s = lxcABORTING ∨ s = lxcFREEZING ∨
        s = lxcFROZEN ∨ s = lxcTHAWED) →
      Container.state s probe = (Container.getContainerInitState probe, none))
  ∧ (∀ content, Container.getContainerInitState (InitProbe.cmdline content) =
      (if content = initSentinel then ContainerState.created else ContainerState.running))
  ∧ (∀ b, Container.getContainerInitState (InitProbe.readError b) = ContainerState.stopped)
  ∧ Container.getContainerInitState InitProbe.noPid = ContainerState.stopped
  ∧ (¬ (s = lxcSTOPPED ∨ s = lxcSTARTING ∨ s = lxcRUNNING ∨ s = lxcSTOPPING ∨
        s = lxcABORTING ∨ s = lxcFREEZING ∨ s = lxcFROZEN ∨ s = lxcTHAWED) →
      ∃ e, Container.state s probe = (ContainerState.stopped, some e)) := by
  refine ⟨rfl, rfl, ?_, fun content => rfl, fun b => rfl, rfl, ?_⟩
  · rintro (h | h | h | h | h | h) <;> subst h <;> rfl
  · intro h
    push_neg at h
    obtain ⟨h1, h2, h3, h4, h5, h6, h7, h8⟩ := h
    refine ⟨"unsupported lxc container state", ?_⟩
    simp [Container.state, h1, h2, h3, h4, h5, h6, h7, h8]

/-- Witness for C1 at concrete inputs: engine RUNNING with the sentinel
cmdline maps to created, and an unknown engine state code yields an error. -/
theorem oci_state_mapping_witness :
    Container.state lxcRUNNING (InitProbe.cmdline initSentinel) = (ContainerState.created, none)
  ∧ (∃ e, Container.state 99 InitProbe.noPid = (ContainerState.stopped, some e)) := by
  constructor
  · have h := (oci_state_mapping lxcRUNNING (InitProbe.cmdline initSentinel)).2.2.1 (Or.inl rfl)
    simpa [Container.getContainerInitState] using h
  · exact (oci_state_mapping 99 InitProbe.noPid).2.2.2.2.2.2 (by decide)

/-- C10: For every recorded monitor pid below 2 (0, 1, and negatives
included), isMonitorRunning returns false at once and issues no wait or kill
syscall. -/
theorem monitor_pid_guard (cPid : Int) (env : MonitorEnv) (h : cPid < 2) :
    Container.isMonitorRunning cPid env = (false, []) := by
  simp [Container.isMonitorRunning, h]

/-- Witness for C10 at pids 1, 0 and -5. -/
theorem monitor_pid_guard_witness :
    Container.isMonitorRunning 1 (MonitorEnv.mk (0, none) none) = (false, [])
  ∧ Container.isMonitorRunning 0 (MonitorEnv.mk (0, none) none) = (false, [])
  ∧ Container.isMonitorRunning (-5) (MonitorEnv.mk (0, none) none) = (false, []) :=
  ⟨monitor_pid_guard 1 (MonitorEnv.mk (0, none) none) (by decide),
   monitor_pid_guard 0 (MonitorEnv.mk (0, none) none) (by decide),
   monitor_pid_guard (-5) (MonitorEnv.mk (0, none) none) (by decide)⟩

/-- C8, evaluation at the failing input: with a /dev mount in the spec and one
requested device, the translated mount list keeps no /dev mount at all - the
freshly constructed tmpfs /dev mount is appended to c.Spec.Mounts, which the
end of the block overwrites with newMounts, so it is lost - while the device
bind mounts are present, one per device. -/
theorem mknod_fallback_drops_tmpfs :
    mknodFallbackMounts sampleSpecMounts sampleDevices =
      [Mount.mk "/proc" "proc" "proc" [], devBindMount "/dev/null"]
  ∧ (mknodFallbackMounts sampleSpecMounts sampleDevices).filter
      (fun m => m.Destination = "/dev") = [] := by
  exact ⟨rfl, rfl⟩

/-- C6, evaluation at the failing input: strings.TrimLeft treats SCMP_ARCH_
as a character set, so every leading character of ARM is trimmed away and the
emitted architecture is the empty string (twice, because the accumulator is
preallocated with one empty string per listed architecture), not arm as the
spec prescribes. -/
theorem seccomp_arch_divergence :
    seccompArchs armSeccomp "x86_64" = ["", ""]
  ∧ specArchName "SCMP_ARCH_ARM" = "arm" := by
  exact ⟨rfl, rfl⟩

/-- C5, counterexample: with default action trace, writeSeccompProfile does
not write the profile - defaultAction returns a non-nil error alongside the
kill fallback string and the write fails with it. -/
theorem seccomp_trace_write_fails :
    writeSeccompProfile traceSeccomp "x86_64" =
      Except.error "Unsupported seccomp default action" := rfl

/-- C5 (amended): the default action maps kill to kill, trap to trap, errno
to errno 0 and allow to allow; for the unsupported trace and log actions the
code logs a warning and returns the fallback string kill together with a
non-nil error, so writeSeccompProfile fails with that error instead of
writing the profile. -/
theorem seccomp_default_action_mapping (s : LinuxSeccomp) (nativeArch : String) :
    (s.DefaultAction = LinuxSeccompAction.ActKill → defaultAction s = ("kill", none))
  ∧ (s.DefaultAction = LinuxSeccompAction.ActTrap → defaultAction s = ("trap", none))
  ∧ (s.DefaultAction = LinuxSeccompAction.ActErrno → defaultAction s = ("errno 0", none))
  ∧ (s.DefaultAction = LinuxSeccompAction.ActAllow → defaultAction s = ("allow", none))
  ∧ ((s.DefaultAction = LinuxSeccompAction.ActTrace ∨
        s.DefaultAction = LinuxSeccompAction.ActLog) →
      (defaultAction s).1 = "kill" ∧
      ∃ e, (defaultAction s).2 = some e ∧
        writeSeccompProfile s nativeArch = Except.error e) := by
  refine ⟨?_, ?_, ?_, ?_, ?_⟩ <;> intro h
  · simp [defaultAction, h]
  · simp [defaultAction, h]
  · simp [defaultAction, h]
  · simp [defaultAction, h]
  · rcases h with h | h <;>
      exact ⟨by simp [defaultAction, h],
        "Unsupported seccomp default action",
        by simp [defaultAction, h],
        by simp [writeSeccompProfile, defaultAction, h]⟩

/-- Witness for C5 at the concrete trace-action seccomp block. -/
theorem seccomp_default_action_witness :
    (defaultAction traceSeccomp).1 = "kill" ∧
    ∃ e, (defaultAction traceSeccomp).2 = some e ∧
      writeSeccompProfile traceSeccomp "x86_64" = Except.error e :=
  (seccomp_default_action_mapping traceSeccomp "x86_64").2.2.2.2 (Or.inl rfl)

/-- Length of the name-filtered rule lines generated from a list of argument
comparisons for one syscall name. -/
theorem filter_name_map_length (a nm action : String) (args : List LinuxSeccompArg) :
    (List.filter (fun l => decide (l.name = nm))
        (args.map (fun arg => SeccompRuleLine.mk a action (some arg)))).length
      = if a = nm then args.length else 0 := by
  induction args with
  | nil => simp
  | cons x xs ih =>
      by_cases h : a = nm
      · subst h
        simp [List.filter_cons, ih]
      · simp [List.filter_cons, h, ih]

/-- Per-name rule line count of the loop of writeSeccompSyscall: each name
contributes one line when the entry carries no argument comparisons, and one
line per argument comparison otherwise. -/
theorem seccompSyscallLines_count (sc : LinuxSyscall) (names : List String)
    (lines : List SeccompRuleLine) (h : seccompSyscallLines sc names = Except.ok lines)
    (nm : String) :
    (lines.filter (fun l => l.name = nm)).length =
      names.count nm * (if sc.Args.isEmpty then 1 else sc.Args.length) := by
  induction names generalizing lines with
  | nil =>
      simp only [seccompSyscallLines] at h
      cases h
      simp
  | cons a rest ih =>
      simp only [seccompSyscallLines] at h
      cases hact : seccompAction sc.Action with
      | none => rw [hact] at h; cases h
      | some action =>
          rw [hact] at h
          cases hrec : seccompSyscallLines sc rest with
          | error e => rw [hrec] at h; cases h
          | ok ls =>
              rw [hrec] at h
              cases h
              rw [List.filter_append, List.length_append, ih ls hrec]
              by_cases hargs : sc.Args.isEmpty <;> by_cases hname : a = nm
              · subst hname
                simp [hargs, List.count_cons]
                try ring
              · simp [hargs, hname, List.count_cons]
              · subst hname
                rw [if_neg hargs, filter_name_map_length]
                simp [hargs, List.count_cons]
                try ring
              · rw [if_neg hargs, filter_name_map_length]
                simp [hargs, hname, List.count_cons]

/-- C7: For every syscall entry successfully written, and every name, the
emitted rule lines for that name number one per argument comparison when
there is at least one, and exactly one when the entry has no argument
comparisons (counted once per occurrence of the name in the entry). -/
theorem seccomp_rule_expansion (sc : LinuxSyscall) (lines : List SeccompRuleLine)
    (h : writeSeccompSyscall sc = Except.ok lines) (nm : String) :
    (lines.filter (fun l => l.name = nm)).length =
      sc.Names.count nm * (if sc.Args.isEmpty then 1 else sc.Args.length) :=
  seccompSyscallLines_count sc sc.Names lines h nm

/-- Witness for C7 at a concrete syscall entry with two argument
comparisons. -/
theorem seccomp_rule_expansion_witness :
    (sampleLines.filter (fun l => l.name = "socket")).length =
      sampleSyscall.Names.count "socket" *
        (if sampleSyscall.Args.isEmpty then 1 else sampleSyscall.Args.length) :=
  seccomp_rule_expansion sampleSyscall sampleLines rfl "socket"

/-- C3: Start refuses (error, and no FIFO effect) whenever the computed OCI
status is not created, and Kill refuses (error, and no signal effect)
whenever the status is stopped. -/
theorem start_kill_refusal (envS : StartEnv) (envK : KillEnv) (signum : Int) :
    (∀ st, Container.state envS.engineState envS.probe = (st, none) →
        st ≠ ContainerState.created →
        Runtime.Start envS = (Except.error "invalid container state", []))
  ∧ (Container.state envK.engineState envK.probe = (ContainerState.stopped, none) →
      Runtime.Kill envK signum = (Except.error "container already stopped", [])) := by
  constructor
  · intro st hst hne
    unfold Runtime.Start
    rw [hst]
    simp [hne]
  · intro hst
    unfold Runtime.Kill
    rw [hst]
    simp

/-- Witness for C3: a stopped container refuses Start and Kill without
effects. -/
theorem start_kill_refusal_witness :
    Runtime.Start
        (StartEnv.mk lxcSTOPPED InitProbe.noPid (Except.ok ()) (Except.ok ()) (Except.ok ()))
      = (Except.error "invalid container state", [])
  ∧ Runtime.Kill (KillEnv.mk lxcSTOPPED InitProbe.noPid none) SIGKILL
      = (Except.error "container already stopped", []) :=
  ⟨(start_kill_refusal
      (StartEnv.mk lxcSTOPPED InitProbe.noPid (Except.ok ()) (Except.ok ()) (Except.ok ()))
      (KillEnv.mk lxcSTOPPED InitProbe.noPid none) SIGKILL).1
      ContainerState.stopped rfl (by decide),
   (start_kill_refusal
      (StartEnv.mk lxcSTOPPED InitProbe.noPid (Except.ok ()) (Except.ok ()) (Except.ok ()))
      (KillEnv.mk lxcSTOPPED InitProbe.noPid none) SIGKILL).2 rfl⟩

/-- C4: Delete succeeds with no effect when the container does not exist;
removes the orphan runtime directory when the container cannot be loaded;
refuses when the status is not stopped and force is not set; with force set
it sends SIGKILL cgroup-wide and drains the cgroup before destroying
(removing the runtime directory and releasing the engine handle), the
result depending only on the destroy outcome; and the drain outcome never
influences the result (it is only logged). -/
theorem delete_behaviour (force : Bool) (env : DeleteEnv) :
    (env.load = LoadResult.notExist → Runtime.Delete force env = (Except.ok (), []))
  ∧ (∀ e, env.load = LoadResult.loadError e →
      Runtime.Delete force env = (env.removeAll, [Effect.removeOrphanDir]))
  ∧ (∀ c st, env.load = LoadResult.ok c →
      Container.state c.engineState c.probe = (st, none) →
      st ≠ ContainerState.stopped →
      (force = false → Runtime.Delete force env =
          (Except.error "container is not not stopped", []))
      ∧ (force = true → (Container.kill c.killCgroup SIGKILL).1 = Except.ok () →
          (Runtime.Delete force env).1.isOk = (c.destroy).isOk
          ∧ (Runtime.Delete force env).2 =
              Effect.killCgroup SIGKILL ::
                ((if c.cgroupDir = "" then []
                  else [Effect.drainCgroup c.cgroupDir SIGKILL]) ++ [Effect.destroy])))
  ∧ (∀ cg es pr kc d1 d2 ds rm,
      Runtime.Delete force
          (DeleteEnv.mk (LoadResult.ok (LoadedContainer.mk cg es pr kc d1 ds)) rm)
        = Runtime.Delete force
          (DeleteEnv.mk (LoadResult.ok (LoadedContainer.mk cg es pr kc d2 ds)) rm)) := by
  obtain ⟨l, rm0⟩ := env
  refine ⟨?_, ?_, ?_, ?_⟩
  · intro h
    have hl : l = LoadResult.notExist := h
    subst hl
    rfl
  · intro e h
    have hl : l = LoadResult.loadError e := h
    subst hl
    rfl
  · intro c st hload hstate hne
    have hl : l = LoadResult.ok c := hload
    subst hl
    constructor
    · intro hf
      subst hf
      simp only [Runtime.Delete]
      rw [hstate]
      simp [hne]
    · intro hf hkill
      subst hf
      simp only [Runtime.Delete]
      rw [hstate]
      rcases hk : c.killCgroup with _ | k
      · cases hd : c.destroy <;> simp [Container.kill, hk, hne, hd, Except.isOk, Except.toBool]
      · cases k with
        | notExist => cases hd : c.destroy <;> simp [Container.kill, hk, hne, hd, Except.isOk, Except.toBool]
        | enodev => cases hd : c.destroy <;> simp [Container.kill, hk, hne, hd, Except.isOk, Except.toBool]
        | other e => simp [Container.kill, hk] at hkill
  · intro cg es pr kc d1 d2 ds rm
    rfl

/-- Witness for C4 at concrete environments: a missing container, an
unloadable container, and a running container deleted without and with
force. -/
theorem delete_behaviour_witness :
    Runtime.Delete true (DeleteEnv.mk LoadResult.notExist (Except.ok ())) = (Except.ok (), [])
  ∧ Runtime.Delete true (DeleteEnv.mk (LoadResult.loadError "bad snapshot") (Except.ok ()))
      = (Except.ok (), [Effect.removeOrphanDir])
  ∧ Runtime.Delete false (DeleteEnv.mk (LoadResult.ok runningLoaded) (Except.ok ()))
      = (Except.error "container is not not stopped", [])
  ∧ (Runtime.Delete true (DeleteEnv.mk (LoadResult.ok runningLoaded) (Except.ok ()))).2 =
      Effect.killCgroup SIGKILL ::
        ((if runningLoaded.cgroupDir = "" then []
          else [Effect.drainCgroup runningLoaded.cgroupDir SIGKILL]) ++ [Effect.destroy]) :=
  ⟨(delete_behaviour true (DeleteEnv.mk LoadResult.notExist (Except.ok ()))).1 rfl,
   (delete_behaviour true
      (DeleteEnv.mk (LoadResult.loadError "bad snapshot") (Except.ok ()))).2.1
      "bad snapshot" rfl,
   ((delete_behaviour false (DeleteEnv.mk (LoadResult.ok runningLoaded) (Except.ok ()))).2.2.1
      runningLoaded ContainerState.running rfl rfl (by decide)).1 rfl,
   (((delete_behaviour true (DeleteEnv.mk (LoadResult.ok runningLoaded) (Except.ok ()))).2.2.1
      runningLoaded ContainerState.running rfl rfl (by decide)).2 rfl rfl).2⟩

/-- C9, counterexample: Create on a configuration that fails validation (an
empty container ID) returns a nil container alongside the error, so the
claim that every failing Create returns a non-nil container is false. -/
theorem create_nil_on_validation_failure :
    Runtime.Create noHostNs emptyIDConfig allOkCreateEnv =
      (none, some "missing container ID") := rfl

/-- C9 (amended): once validation has succeeded, every outcome of Create -
including every later failure - carries the partially-constructed container;
when validation itself fails, Create returns a nil container with the
validation error. -/
theorem create_partial_container_on_failure
    (hostNsPath : LinuxNamespaceType → String → Bool) (cfg : ContainerConfig)
    (env : CreateEnv) :
    (∀ c, Runtime.checkConfig hostNsPath cfg = Except.ok c →
        (Runtime.Create hostNsPath cfg env).1 = some c)
  ∧ (∀ e, Runtime.checkConfig hostNsPath cfg = Except.error e →
        Runtime.Create hostNsPath cfg env = (none, some e)) := by
  obtain ⟨s1, s2, s3, s4, s5, s6, s7, s8⟩ := env
  constructor
  · intro c h
    unfold Runtime.Create
    rw [h]
    cases s1 <;> cases s2 <;> cases s3 <;> cases s4 <;> cases s5 <;> cases s6 <;>
      cases s7 <;> cases s8 <;> rfl
  · intro e h
    unfold Runtime.Create
    rw [h]

/-- Witness for C9: a valid configuration whose monitor launch fails yields
the partially-constructed container together with the launch error. -/
theorem create_partial_witness :
    (Runtime.Create noHostNs validConfig failStartCreateEnv).1 = some validConfig ∧
    (Runtime.Create noHostNs validConfig failStartCreateEnv).2 =
      some "failed to run container process: monitor died" :=
  ⟨(create_partial_container_on_failure noHostNs validConfig failStartCreateEnv).1
      validConfig rfl, rfl⟩

/-- C2: validation accepts a configuration exactly when the container ID is
nonempty, Root is present with a nonempty path, Process is present with
nonempty Args, and the namespace list does not share the host mount
namespace - sharing the host PID namespace plays no role in acceptance (it
is only logged at info level); and on acceptance an empty Process.Cwd has
been set to /. -/
theorem create_validation (hostNsPath : LinuxNamespaceType → String → Bool)
    (cfg : ContainerConfig) :
    ((Runtime.checkConfig hostNsPath cfg).isOk = true ↔
      (cfg.ContainerID.length ≠ 0 ∧
        (∃ root, cfg.Spec.Root = some root ∧ root.Path.length ≠ 0) ∧
        (∃ proc, cfg.Spec.Process = some proc ∧ proc.Args.length ≠ 0) ∧
        isHostNamespaceShared cfg.Spec.Namespaces LinuxNamespaceType.mount
          (hostNsPath LinuxNamespaceType.mount) = false))
  ∧ (∀ cfg2 proc, Runtime.checkConfig hostNsPath cfg = Except.ok cfg2 →
      cfg.Spec.Process = some proc → proc.Cwd = "" →
      cfg2.Spec.Process = some (SpecProcess.mk proc.Args "/")) := by
  obtain ⟨cid, sroot, sproc, nss⟩ := cfg
  constructor
  · by_cases hid : cid.length = 0
    · simp [Runtime.checkConfig, Runtime.checkSpec, hid, Except.isOk, Except.toBool]
    · cases sroot with
      | none =>
          simp [Runtime.checkConfig, Runtime.checkSpec, hid, Except.isOk, Except.toBool]
      | some root =>
          by_cases hroot : root.Path.length = 0
          · simp [Runtime.checkConfig, Runtime.checkSpec, hid, hroot,
              Except.isOk, Except.toBool]
          · cases sproc with
            | none =>
                simp [Runtime.checkConfig, Runtime.checkSpec, hid, hroot,
                  Except.isOk, Except.toBool]
            | some proc =>
                by_cases hargs : proc.Args.length = 0
                · have hargs2 : proc.Args = [] := List.length_eq_zero.mp hargs
                  simp [Runtime.checkConfig, Runtime.checkSpec, hid, hroot, hargs,
                    hargs2, Except.isOk, Except.toBool]
                · have hargs2 : ¬ proc.Args = [] := fun hh => hargs (by simp [hh])
                  by_cases hsh : isHostNamespaceShared nss LinuxNamespaceType.mount
                      (hostNsPath LinuxNamespaceType.mount) = true
                  · simp [Runtime.checkConfig, Runtime.checkSpec, hid, hroot, hargs,
                      hargs2, hsh, Except.isOk, Except.toBool]
                  · simp [Runtime.checkConfig, Runtime.checkSpec, hid, hroot, hargs,
                      hargs2, hsh, Except.isOk, Except.toBool]
  · intro cfg2 proc h hproc hcwd
    have hsp : sproc = some proc := hproc
    subst hsp
    cases sroot with
    | none =>
        simp only [Runtime.checkConfig, Runtime.checkSpec] at h
        split_ifs at h
    | some root =>
        simp only [Runtime.checkConfig, Runtime.checkSpec] at h
        split_ifs at h
        simp_all
        obtain rfl := h
        rfl

/-- Witness for C2: a configuration that shares the host PID namespace (its
namespace list omits the PID type) is accepted, and an accepted
configuration with an empty Cwd has it defaulted to /. -/
theorem create_validation_witness :
    (Runtime.checkConfig noHostNs validConfig).isOk = true
  ∧ emptyCwdChecked.Spec.Process = some (SpecProcess.mk ["sh"] "/") :=
  ⟨(create_validation noHostNs validConfig).1.mpr
      ⟨by decide, ⟨SpecRoot.mk "/rootfs", rfl, by decide⟩,
       ⟨SpecProcess.mk ["sh"] "/", rfl, by decide⟩, rfl⟩,
   (create_validation noHostNs emptyCwdConfig).2 emptyCwdChecked
      (SpecProcess.mk ["sh"] "") rfl rfl rfl⟩

end Lxcri
